import Mathlib

/-!
Verification of the API Gateway subsystem (gateway service registry,
health prober, request router/proxy, introspection endpoints) of the
RESTful_APIs repository, shallowly embedded in Lean 4.

The embedding mirrors the `APIGateway` class: the `services` map becomes an
association list of `ServiceDescriptor`s, the proxy event handlers
(`onError`, `onProxyReq`, `onProxyRes`), the health probe
(`checkServiceHealth`) and the introspection handlers (`/health`,
`/services`, fallback) become pure functions, with the mutable registry
threaded explicitly.
-/

namespace Gateway

/-- Health status of a registered service: the string field `status` of a
service descriptor takes exactly the values `unknown`, `healthy`,
`unhealthy` in the source. -/
inductive Status where
  | unknown
  | healthy
  | unhealthy
deriving DecidableEq, Repr

/-- The `responseTime` field of a descriptor: either a measured latency
string of the form `<n>ms` or the sentinel string `timeout`. -/
inductive RespTime where
  | ms (n : Nat)
  | timeout
deriving DecidableEq, Repr

/-- One registry entry, mirroring the object literals stored in
`this.services` by `registerServices`.  `lastHealthCheck` is `null` until
first written (the source stores an ISO timestamp string; we model time
as a `Nat`), `responseTime` is `null` until first written by a probe. -/
structure ServiceDescriptor where
  name : String
  url : String
  health : String
  routes : List String
  status : Status
  lastHealthCheck : Option Nat
  responseTime : Option RespTime
deriving DecidableEq, Repr

/-- The service registry `this.services`: a key-ordered map, modelled as an
association list in insertion order (JS `Map` iterates in insertion
order). -/
abbrev Registry := List (String × ServiceDescriptor)

/-- The user-service descriptor as registered. -/
def userService : ServiceDescriptor :=
  { name := "User Service"
    url := "http://localhost:3002"
    health := "http://localhost:3002/health"
    routes := ["/api/users", "/api/auth"]
    status := Status.unknown
    lastHealthCheck := none
    responseTime := none }

/-- The product-service descriptor as registered. -/
def productService : ServiceDescriptor :=
  { name := "Product Service"
    url := "http://localhost:3003"
    health := "http://localhost:3003/health"
    routes := ["/api/products"]
    status := Status.unknown
    lastHealthCheck := none
    responseTime := none }

/-- The order-service descriptor as registered. -/
def orderService : ServiceDescriptor :=
  { name := "Order Service"
    url := "http://localhost:3004"
    health := "http://localhost:3004/health"
    routes := ["/api/orders"]
    status := Status.unknown
    lastHealthCheck := none
    responseTime := none }

/-- `registerServices`: the three statically registered microservices. -/
def registerServices : Registry :=
  [ ("user-service", userService)
  , ("product-service", productService)
  , ("order-service", orderService) ]

/-- `this.services.get(key)`: association-list lookup. -/
def getService (reg : Registry) (key : String) : Option ServiceDescriptor :=
  (reg.find? (fun e => e.1 == key)).map Prod.snd

/-- In-place mutation of the descriptor stored under `key` (the proxy
handlers and the prober mutate the shared descriptor object; here the
updated registry is returned). -/
def updateAt (reg : Registry) (key : String) (f : ServiceDescriptor → ServiceDescriptor) :
    Registry :=
  reg.map (fun e => if e.1 == key then (e.1, f e.2) else e)

/-- Does the character list `p` occur at the start of `s`? -/
def listStartsWith : List Char → List Char → Bool
  | [], _ => true
  | _ :: _, [] => false
  | a :: as, b :: bs => a == b && listStartsWith as bs

/-- `p` is a leading substring of `s`. -/
def strStartsWith (p s : String) : Bool :=
  listStartsWith p.data s.data

/-- The proxy mounts installed by `setupServiceProxies`, in mount order:
`app.use(mountPath, createServiceProxy(serviceKey, ...))`.  Note the
descriptor metadata lists a fourth route prefix, `/api/auth`, for the
user service, but no proxy is mounted for it. -/
def mountedProxies : List (String × String) :=
  [ ("/api/users", "user-service")
  , ("/api/products", "product-service")
  , ("/api/orders", "order-service") ]

/-- Express `app.use(mount, ...)` matches a request path when the path
equals the mount or extends it at a `/` boundary. -/
def mountMatches (mount path : String) : Bool :=
  path == mount || strStartsWith (mount ++ "/") path

/-- Resolve a request path to the key of the service whose proxy mount
matches it, if any; unmatched paths fall through to the fallback route. -/
def routeRequest (path : String) : Option String :=
  (mountedProxies.find? (fun m => mountMatches m.1 path)).map Prod.snd

/-- A response received from a backend by the proxy (`proxyRes`). -/
structure BackendResponse where
  statusCode : Nat
  headers : List (String × String)
  body : String
deriving DecidableEq, Repr

/-- Body of the synthesized 503 sent by the proxy `onError` handler. -/
structure UnavailableBody where
  error : String
  message : String
  service : String
  requestId : String
  retryAfter : Nat
  suggestions : List String
deriving DecidableEq, Repr

/-- Body of the 404 sent by the fallback route. -/
structure NotFoundBody where
  error : String
  message : String
  availableServices : List String
  suggestions : List String
  requestId : String
deriving DecidableEq, Repr

/-- `onProxyReq`: the gateway metadata headers added to the forwarded
request. -/
def onProxyReq (headers : List (String × String)) (reqId ts ver : String) :
    List (String × String) :=
  headers ++
    [ ("X-Gateway-Request-ID", reqId)
    , ("X-Gateway-Timestamp", ts)
    , ("X-Gateway-Version", ver)
    , ("X-Forwarded-By", "api-gateway") ]

/-- `onError`: on a proxy transport failure the service is marked
unhealthy (`status`, `lastHealthCheck` written; `responseTime` untouched)
and a 503 service-unavailable payload is synthesized. -/
def onError (serviceKey : String) (svc : ServiceDescriptor) (reqId : String) (now : Nat) :
    ServiceDescriptor × Nat × UnavailableBody :=
  ( { svc with status := Status.unhealthy, lastHealthCheck := some now }
  , 503
  , { error := "Service unavailable"
      message := svc.name ++ " is currently unavailable"
      service := serviceKey
      requestId := reqId
      retryAfter := 30
      suggestions :=
        [ "Try again in a few moments"
        , "Check service status at /services"
        , "Contact support if problem persists" ] } )

/-- `onProxyRes`: attribution headers are added to the relayed response;
the service is marked healthy (with a fresh `lastHealthCheck`) only when
the backend status code is below 500, and the backend response is relayed
either way. -/
def onProxyRes (serviceKey : String) (svc : ServiceDescriptor) (res : BackendResponse)
    (reqId : String) (now : Nat) : ServiceDescriptor × BackendResponse :=
  let out := { res with
    headers := res.headers ++
      [("X-Gateway-Service", serviceKey), ("X-Gateway-Request-ID", reqId)] }
  if res.statusCode < 500 then
    ({ svc with status := Status.healthy, lastHealthCheck := some now }, out)
  else
    (svc, out)

/-- Outcome of the HTTP GET a health probe issues: either a response with
a status code and elapsed time, or a transport failure / timeout. -/
inductive ProbeResult where
  | response (status : Nat) (elapsed : Nat)
  | transportFailure
deriving DecidableEq, Repr

/-- `axios.get(service.health, { timeout, validateStatus: s < 500 })`:
resolves with the status and elapsed time when a response with status
below 500 arrives, rejects on a response of 500 or above and on
timeout/transport failure. -/
def axiosGet : ProbeResult → Except Unit (Nat × Nat)
  | ProbeResult.response s e => if s < 500 then Except.ok (s, e) else Except.error ()
  | ProbeResult.transportFailure => Except.error ()

/-- `checkServiceHealth`: the try branch marks the service healthy exactly
when the response status is 200 (otherwise unhealthy), recording the
elapsed latency; the catch branch marks it unhealthy with the `timeout`
sentinel. -/
def checkServiceHealth (svc : ServiceDescriptor) (r : ProbeResult) (now : Nat) :
    ServiceDescriptor :=
  match axiosGet r with
  | Except.ok (st, elapsed) =>
      { svc with
        status := if st == 200 then Status.healthy else Status.unhealthy
        lastHealthCheck := some now
        responseTime := some (RespTime.ms elapsed) }
  | Except.error _ =>
      { svc with
        status := Status.unhealthy
        lastHealthCheck := some now
        responseTime := some RespTime.timeout }

/-- Behaviour of the backend for one proxied request: it either produces a
response (handled by `onProxyRes`) or the transport fails (handled by
`onError`). -/
inductive BackendBehavior where
  | respond (res : BackendResponse) (now : Nat)
  | fail (now : Nat)
deriving DecidableEq, Repr

/-- The request forwarded to a backend by the proxy. -/
structure ForwardedRequest where
  target : String
  method : String
  path : String
  headers : List (String × String)
deriving DecidableEq, Repr

/-- What the gateway sends back to the caller of a routed (or unroutable)
request. -/
inductive GatewayReply where
  | relayed (statusCode : Nat) (headers : List (String × String)) (body : String)
  | unavailable (statusCode : Nat) (body : UnavailableBody)
  | notFound (statusCode : Nat) (body : NotFoundBody)
deriving DecidableEq, Repr

/-- The fallback route `app.use('*', ...)`: a 404 enumerating the
registered service keys; the registry is read, never written. -/
def fallbackHandler (reg : Registry) (method path reqId : String) :
    Registry × Nat × NotFoundBody :=
  ( reg
  , 404
  , { error := "Route not found"
      message := "Gateway cannot route " ++ method ++ " " ++ path
      availableServices := reg.map Prod.fst
      suggestions :=
        [ "Check if the target service is running"
        , "Verify the route path is correct"
        , "Check service registration in gateway" ]
      requestId := reqId } )

/-- One inbound request through the routing portion of the gateway: the
path is resolved against the proxy mounts; a routed request is forwarded
with the injected gateway headers and its outcome drives
`onProxyRes`/`onError` on the owning descriptor; an unroutable request
reaches the fallback route. -/
def handleRequest (reg : Registry) (method path : String)
    (reqHeaders : List (String × String)) (reqId ts ver : String)
    (backend : BackendBehavior) :
    Registry × Option ForwardedRequest × GatewayReply :=
  match routeRequest path with
  | some key =>
      match getService reg key with
      | some svc =>
          let fwd : ForwardedRequest :=
            { target := svc.url
              method := method
              path := path
              headers := onProxyReq reqHeaders reqId ts ver }
          match backend with
          | BackendBehavior.respond res now =>
              let (svc2, out) := onProxyRes key svc res reqId now
              ( updateAt reg key (fun _ => svc2)
              , some fwd
              , GatewayReply.relayed out.statusCode out.headers out.body )
          | BackendBehavior.fail now =>
              let (svc2, code, body) := onError key svc reqId now
              ( updateAt reg key (fun _ => svc2)
              , some fwd
              , GatewayReply.unavailable code body )
      | none =>
          let (reg2, code, body) := fallbackHandler reg method path reqId
          (reg2, none, GatewayReply.notFound code body)
  | none =>
      let (reg2, code, body) := fallbackHandler reg method path reqId
      (reg2, none, GatewayReply.notFound code body)

/-- Per-service entry of the `/health` response. -/
structure HealthEntry where
  name : String
  status : Status
  lastHealthCheck : Option Nat
  responseTime : Option RespTime
deriving DecidableEq, Repr

/-- The `/health` response: HTTP status plus body fields. -/
structure HealthReport where
  httpStatus : Nat
  status : String
  services : List (String × HealthEntry)
  totalServices : Nat
  healthyServices : Nat
deriving DecidableEq, Repr

/-- The `GET /health` handler: overall health is the conjunction of every
descriptor being `healthy`; responds 200/`healthy` or 503/`degraded`
with the per-service status, last-check time and latency. -/
def healthHandler (reg : Registry) : HealthReport :=
  let overallHealth := reg.all (fun e => e.2.status == Status.healthy)
  { httpStatus := if overallHealth then 200 else 503
    status := if overallHealth then "healthy" else "degraded"
    services := reg.map (fun e =>
      (e.1,
        { name := e.2.name
          status := e.2.status
          lastHealthCheck := e.2.lastHealthCheck
          responseTime := e.2.responseTime }))
    totalServices := reg.length
    healthyServices := (reg.filter (fun e => e.2.status == Status.healthy)).length }

/-- Per-service entry of the `/services` response. -/
structure ServiceEntry where
  name : String
  url : String
  status : Status
  routes : List String
  lastHealthCheck : Option Nat
  responseTime : Option RespTime
  healthy : Bool
deriving DecidableEq, Repr

/-- The `/services` response: always reported with `success`, per-service
data and summary counts by status. -/
structure ServicesReport where
  success : Bool
  data : List (String × ServiceEntry)
  total : Nat
  healthyCount : Nat
  unhealthyCount : Nat
  unknownCount : Nat
deriving DecidableEq, Repr

/-- The `GET /services` handler. -/
def servicesHandler (reg : Registry) : ServicesReport :=
  { success := true
    data := reg.map (fun e =>
      (e.1,
        { name := e.2.name
          url := e.2.url
          status := e.2.status
          routes := e.2.routes
          lastHealthCheck := e.2.lastHealthCheck
          responseTime := e.2.responseTime
          healthy := e.2.status == Status.healthy }))
    total := reg.length
    healthyCount := (reg.filter (fun e => e.2.status == Status.healthy)).length
    unhealthyCount := (reg.filter (fun e => e.2.status == Status.unhealthy)).length
    unknownCount := (reg.filter (fun e => e.2.status == Status.unknown)).length }

/-- The schedule installed by `startHealthMonitoring`: an immediate probe
of every registered key, then a `setInterval` pass every 30000 ms. -/
structure HealthMonitor where
  initialProbes : List String
  intervalMs : Nat
deriving DecidableEq, Repr

/-- `startHealthMonitoring`: probes every registered service once
immediately, and installs a 30000 ms periodic timer for the repeated
passes. -/
def startHealthMonitoring (reg : Registry) : HealthMonitor :=
  { initialProbes := reg.map Prod.fst
    intervalMs := 30000 }

/-- One full probe pass: every registered service is probed
(`checkServiceHealth`), each with its own independent outcome. -/
def runProbePass (reg : Registry) (outcome : String → ProbeResult) (now : Nat) :
    Registry :=
  reg.map (fun e => (e.1, checkServiceHealth e.2 (outcome e.1) now))

/-- Looking up `key` after updating the descriptor stored at `key` sees the
updated descriptor. -/
theorem getService_updateAt (reg : Registry) (key : String)
    (f : ServiceDescriptor → ServiceDescriptor) :
    getService (updateAt reg key f) key = (getService reg key).map f := by
  induction reg with
  | nil => rfl
  | cons e tl ih =>
      by_cases h : (e.1 == key) = true
      · simp only [getService, updateAt, List.map_cons]
        rw [if_pos h,
          List.find?_cons_of_pos (p := fun x : String × ServiceDescriptor => x.1 == key)
            (a := (e.1, f e.2)) _ h,
          List.find?_cons_of_pos (p := fun x : String × ServiceDescriptor => x.1 == key) _ h]
        rfl
      · simp only [getService, updateAt, List.map_cons]
        rw [if_neg h,
          List.find?_cons_of_neg (p := fun x : String × ServiceDescriptor => x.1 == key) _ h,
          List.find?_cons_of_neg (p := fun x : String × ServiceDescriptor => x.1 == key) _ h]
        simpa only [getService, updateAt] using ih

/-- The `every(...)` aggregation of `/health` is the pointwise statement. -/
theorem all_healthy_iff (reg : Registry) :
    (reg.all (fun e => e.2.status == Status.healthy) = true) ↔
      ∀ e ∈ reg, e.2.status = Status.healthy := by
  simp [List.all_eq_true]

/-- C2: for every state of the service registry, `GET /health` reports
overall status `healthy` with HTTP 200 iff every registered descriptor has
status `healthy`; otherwise it reports `degraded` with HTTP 503; and the
report lists each service with its status, last-check time and latency. -/
theorem health_overall_iff_all_healthy (reg : Registry) :
    (((healthHandler reg).httpStatus = 200 ∧ (healthHandler reg).status = "healthy") ↔
      ∀ e ∈ reg, e.2.status = Status.healthy) ∧
    ((¬ ∀ e ∈ reg, e.2.status = Status.healthy) →
      (healthHandler reg).httpStatus = 503 ∧ (healthHandler reg).status = "degraded") ∧
    (∀ e ∈ reg,
      (e.1, HealthEntry.mk e.2.name e.2.status e.2.lastHealthCheck e.2.responseTime) ∈
        (healthHandler reg).services) := by
  by_cases h : reg.all (fun e => e.2.status == Status.healthy) = true
  · have h2 := (all_healthy_iff reg).mp h
    refine ⟨?_, ?_, ?_⟩
    · constructor
      · intro _
        exact h2
      · intro _
        simp [healthHandler, h]
    · intro hn
      exact absurd h2 hn
    · intro e he
      simp only [healthHandler, List.mem_map]
      exact ⟨e, he, rfl⟩
  · have h2 : ¬ ∀ e ∈ reg, e.2.status = Status.healthy :=
      fun hh => h ((all_healthy_iff reg).mpr hh)
    refine ⟨?_, ?_, ?_⟩
    · simp only [healthHandler, h, if_false]
      constructor
      · intro hc
        exact absurd hc.1 (by decide)
      · intro hc
        exact absurd hc h2
    · intro _
      simp [healthHandler, h]
    · intro e he
      simp only [healthHandler, List.mem_map]
      exact ⟨e, he, rfl⟩

/-- C2 witness: the iff and the per-service listing evaluated on the
initial registry, whose descriptors all have status `unknown`. -/
theorem health_overall_iff_all_healthy_witness :
    (¬ ∀ e ∈ registerServices, e.2.status = Status.healthy) ∧
    (healthHandler registerServices).httpStatus = 503 ∧
    (healthHandler registerServices).status = "degraded" :=
  ⟨by decide, (health_overall_iff_all_healthy registerServices).2.1 (by decide)⟩

/-- C7: the `/services` and `/health` responses enumerate the same service
identifiers, in the same order, and report the same status for each. -/
theorem services_health_consistent (reg : Registry) :
    ((servicesHandler reg).data).map Prod.fst =
      ((healthHandler reg).services).map Prod.fst ∧
    ((servicesHandler reg).data).map (fun e => (e.1, e.2.status)) =
      ((healthHandler reg).services).map (fun e => (e.1, e.2.status)) := by
  constructor <;> simp [servicesHandler, healthHandler, List.map_map, Function.comp]

/-- C6: a request whose path is resolved by no proxy mount reaches the
fallback route: the registry is returned unmutated (no descriptor field is
written), nothing is forwarded, and the caller gets a 404 whose
`availableServices` lists every registered identifier. -/
theorem unroutable_404_no_mutation (reg : Registry) (method path : String)
    (reqHeaders : List (String × String)) (reqId ts ver : String)
    (backend : BackendBehavior)
    (hroute : routeRequest path = none) :
    handleRequest reg method path reqHeaders reqId ts ver backend =
      (reg, none,
        GatewayReply.notFound 404
          { error := "Route not found"
            message := "Gateway cannot route " ++ method ++ " " ++ path
            availableServices := reg.map Prod.fst
            suggestions :=
              [ "Check if the target service is running"
              , "Verify the route path is correct"
              , "Check service registration in gateway" ]
            requestId := reqId }) := by
  simp [handleRequest, hroute, fallbackHandler]

/-- C6 witness: a request for `/api/nonexistent/x` against the initial
registry is unroutable and yields the 404 listing all three services. -/
theorem unroutable_404_no_mutation_witness :
    handleRequest registerServices "GET" "/api/nonexistent/x" [] "r" "t" "v"
        (BackendBehavior.fail 0) =
      (registerServices, none,
        GatewayReply.notFound 404
          { error := "Route not found"
            message := "Gateway cannot route " ++ "GET" ++ " " ++ "/api/nonexistent/x"
            availableServices := ["user-service", "product-service", "order-service"]
            suggestions :=
              [ "Check if the target service is running"
              , "Verify the route path is correct"
              , "Check service registration in gateway" ]
            requestId := "r" }) := by
  have h := unroutable_404_no_mutation registerServices "GET" "/api/nonexistent/x" []
    "r" "t" "v" (BackendBehavior.fail 0) (by decide)
  simpa using h

/-- C8: `startHealthMonitoring` schedules an immediate probe pass covering
exactly the registered services, installs the 30000 ms periodic timer for
the repeated passes, and after a completed initial pass no registered
descriptor is left with status `unknown`. -/
theorem initial_probe_pass_covers_all (reg : Registry)
    (outcome : String → ProbeResult) (now : Nat) :
    (startHealthMonitoring reg).initialProbes = reg.map Prod.fst ∧
    (startHealthMonitoring reg).intervalMs = 30000 ∧
    (∀ e ∈ runProbePass reg outcome now, e.2.status ≠ Status.unknown) := by
  refine ⟨rfl, rfl, ?_⟩
  intro e he
  simp only [runProbePass, List.mem_map] at he
  obtain ⟨a, _, rfl⟩ := he
  unfold checkServiceHealth
  cases hr : axiosGet (outcome a.1) with
  | ok p =>
      cases hb : (p.1 == 200) <;> simp [hb]
  | error u => simp

/-- C8 witness: probing the initial registry with every probe timing out
leaves no descriptor `unknown`; evaluated at the user-service entry. -/
theorem initial_probe_pass_covers_all_witness :
    (("user-service",
        checkServiceHealth userService ProbeResult.transportFailure 0) ∈
      runProbePass registerServices (fun _ => ProbeResult.transportFailure) 0) ∧
    (checkServiceHealth userService ProbeResult.transportFailure 0).status ≠
      Status.unknown :=
  ⟨by decide,
    (initial_probe_pass_covers_all registerServices
        (fun _ => ProbeResult.transportFailure) 0).2.2
      ("user-service", checkServiceHealth userService ProbeResult.transportFailure 0)
      (by decide)⟩

/-- C1 counterexample: a proxied request whose backend answers 500 leaves
the registry untouched (user-service still `unknown`, not `unhealthy`) and
the raw 500 response is relayed to the caller instead of a synthesized
503 payload. -/
theorem backend_500_relayed_counterexample :
    (handleRequest registerServices "GET" "/api/users/1" [] "r" "t" "v"
        (BackendBehavior.respond { statusCode := 500, headers := [], body := "boom" } 7)).1 =
      registerServices ∧
    getService
        (handleRequest registerServices "GET" "/api/users/1" [] "r" "t" "v"
          (BackendBehavior.respond
            { statusCode := 500, headers := [], body := "boom" } 7)).1
        "user-service" = some userService ∧
    userService.status = Status.unknown ∧
    (handleRequest registerServices "GET" "/api/users/1" [] "r" "t" "v"
        (BackendBehavior.respond { statusCode := 500, headers := [], body := "boom" } 7)).2.2 =
      GatewayReply.relayed 500
        [("X-Gateway-Service", "user-service"), ("X-Gateway-Request-ID", "r")] "boom" := by
  decide

/-- C1 amended: on a routed request, a backend response with status ≥ 500
leaves the resolved descriptor unchanged and is relayed raw to the caller;
only a transport failure marks the descriptor unhealthy and synthesizes
the 503 service-unavailable payload whose `service` field is the resolved
identifier; and a backend 200 marks the descriptor healthy and relays the
200 body unchanged. -/
theorem proxy_health_update_behavior (reg : Registry) (method path : String)
    (reqHeaders : List (String × String)) (reqId ts ver key : String)
    (svc : ServiceDescriptor)
    (hroute : routeRequest path = some key)
    (hsvc : getService reg key = some svc) :
    (∀ res : BackendResponse, ∀ now : Nat, 500 ≤ res.statusCode →
      getService (handleRequest reg method path reqHeaders reqId ts ver
          (BackendBehavior.respond res now)).1 key = some svc ∧
      (handleRequest reg method path reqHeaders reqId ts ver
          (BackendBehavior.respond res now)).2.2 =
        GatewayReply.relayed res.statusCode
          (res.headers ++
            [("X-Gateway-Service", key), ("X-Gateway-Request-ID", reqId)])
          res.body) ∧
    (∀ now : Nat,
      getService (handleRequest reg method path reqHeaders reqId ts ver
          (BackendBehavior.fail now)).1 key =
        some { svc with status := Status.unhealthy, lastHealthCheck := some now } ∧
      (handleRequest reg method path reqHeaders reqId ts ver
          (BackendBehavior.fail now)).2.2 =
        GatewayReply.unavailable 503
          { error := "Service unavailable"
            message := svc.name ++ " is currently unavailable"
            service := key
            requestId := reqId
            retryAfter := 30
            suggestions :=
              [ "Try again in a few moments"
              , "Check service status at /services"
              , "Contact support if problem persists" ] }) ∧
    (∀ res : BackendResponse, ∀ now : Nat, res.statusCode = 200 →
      getService (handleRequest reg method path reqHeaders reqId ts ver
          (BackendBehavior.respond res now)).1 key =
        some { svc with status := Status.healthy, lastHealthCheck := some now } ∧
      (handleRequest reg method path reqHeaders reqId ts ver
          (BackendBehavior.respond res now)).2.2 =
        GatewayReply.relayed res.statusCode
          (res.headers ++
            [("X-Gateway-Service", key), ("X-Gateway-Request-ID", reqId)])
          res.body) := by
  refine ⟨?_, ?_, ?_⟩
  · intro res now h500
    have hlt : ¬ res.statusCode < 500 := by omega
    simp [handleRequest, hroute, hsvc, onProxyRes, hlt, getService_updateAt]
  · intro now
    simp [handleRequest, hroute, hsvc, onError, getService_updateAt]
  · intro res now h200
    have hlt : res.statusCode < 500 := by omega
    simp [handleRequest, hroute, hsvc, onProxyRes, hlt, getService_updateAt]

/-- C1 amended witness: against the initial registry, a transport failure
on `/api/users/1` marks user-service unhealthy and synthesizes the 503;
a 200 backend response marks it healthy with the body relayed. -/
theorem proxy_health_update_behavior_witness :
    getService (handleRequest registerServices "GET" "/api/users/1" [] "r" "t" "v"
        (BackendBehavior.fail 7)).1 "user-service" =
      some { userService with status := Status.unhealthy, lastHealthCheck := some 7 } ∧
    getService (handleRequest registerServices "GET" "/api/users/1" [] "r" "t" "v"
        (BackendBehavior.respond { statusCode := 200, headers := [], body := "ok" } 8)).1
        "user-service" =
      some { userService with status := Status.healthy, lastHealthCheck := some 8 } :=
  ⟨((proxy_health_update_behavior registerServices "GET" "/api/users/1" [] "r" "t" "v"
      "user-service" userService (by decide) (by decide)).2.1 7).1,
   ((proxy_health_update_behavior registerServices "GET" "/api/users/1" [] "r" "t" "v"
      "user-service" userService (by decide) (by decide)).2.2
      { statusCode := 200, headers := [], body := "ok" } 8 rfl).1⟩

/-- C5 counterexample: `/api/auth` is a registered route prefix of
user-service, and `/api/auth/login` begins with it, yet the gateway
forwards nothing (no proxy is mounted for `/api/auth`) and answers with
the 404 fallback instead of proxying to user-service. -/
theorem auth_route_not_proxied_counterexample :
    ("/api/auth" ∈ userService.routes) ∧
    getService registerServices "user-service" = some userService ∧
    strStartsWith "/api/auth" "/api/auth/login" = true ∧
    (handleRequest registerServices "POST" "/api/auth/login" [] "r" "t" "v"
        (BackendBehavior.respond { statusCode := 200, headers := [], body := "ok" } 3)).2.1 =
      none ∧
    (handleRequest registerServices "POST" "/api/auth/login" [] "r" "t" "v"
        (BackendBehavior.respond { statusCode := 200, headers := [], body := "ok" } 3)).2.2 =
      GatewayReply.notFound 404
        { error := "Route not found"
          message := "Gateway cannot route POST /api/auth/login"
          availableServices := ["user-service", "product-service", "order-service"]
          suggestions :=
            [ "Check if the target service is running"
            , "Verify the route path is correct"
            , "Check service registration in gateway" ]
          requestId := "r" } := by
  decide

/-- C5 amended: for every request whose path matches one of the three
mounted proxy prefixes (`/api/users`, `/api/products`, `/api/orders`),
the gateway forwards the request to the owning descriptor's base address
with the four gateway headers injected, and the relayed response carries
`X-Gateway-Service` and `X-Gateway-Request-ID`; the registered prefix
`/api/auth` has no mounted proxy and such requests reach the 404
fallback. -/
theorem mounted_route_proxied (reg : Registry) (method path : String)
    (reqHeaders : List (String × String)) (reqId ts ver key : String)
    (svc : ServiceDescriptor) (res : BackendResponse) (now : Nat)
    (hroute : routeRequest path = some key)
    (hsvc : getService reg key = some svc) :
    (handleRequest reg method path reqHeaders reqId ts ver
        (BackendBehavior.respond res now)).2.1 =
      some { target := svc.url
             method := method
             path := path
             headers := reqHeaders ++
               [ ("X-Gateway-Request-ID", reqId)
               , ("X-Gateway-Timestamp", ts)
               , ("X-Gateway-Version", ver)
               , ("X-Forwarded-By", "api-gateway") ] } ∧
    (handleRequest reg method path reqHeaders reqId ts ver
        (BackendBehavior.respond res now)).2.2 =
      GatewayReply.relayed res.statusCode
        (res.headers ++
          [("X-Gateway-Service", key), ("X-Gateway-Request-ID", reqId)])
        res.body := by
  constructor
  · simp [handleRequest, hroute, hsvc, onProxyReq]
  · by_cases hlt : res.statusCode < 500 <;>
      simp [handleRequest, hroute, hsvc, onProxyRes, hlt]

/-- C5 amended witness: a request for `/api/products/7` is forwarded to
the product service base address with the injected headers and the
response carries the attribution headers. -/
theorem mounted_route_proxied_witness :
    (handleRequest registerServices "GET" "/api/products/7" [("Accept", "json")]
        "r" "t" "v"
        (BackendBehavior.respond { statusCode := 200, headers := [], body := "p" } 4)).2.1 =
      some { target := "http://localhost:3003"
             method := "GET"
             path := "/api/products/7"
             headers := [("Accept", "json")] ++
               [ ("X-Gateway-Request-ID", "r")
               , ("X-Gateway-Timestamp", "t")
               , ("X-Gateway-Version", "v")
               , ("X-Forwarded-By", "api-gateway") ] } ∧
    (handleRequest registerServices "GET" "/api/products/7" [("Accept", "json")]
        "r" "t" "v"
        (BackendBehavior.respond { statusCode := 200, headers := [], body := "p" } 4)).2.2 =
      GatewayReply.relayed 200
        ([] ++ [("X-Gateway-Service", "product-service"), ("X-Gateway-Request-ID", "r")])
        "p" :=
  mounted_route_proxied registerServices "GET" "/api/products/7" [("Accept", "json")]
    "r" "t" "v" "product-service" productService
    { statusCode := 200, headers := [], body := "p" } 4 (by decide) (by decide)

/-- C3 counterexample: a proxy-path transport failure (`onError`) on a
descriptor whose last probe recorded 42 ms marks it unhealthy but leaves
`responseTime` at 42 ms — it does not become the timeout sentinel. -/
theorem proxy_error_responseTime_counterexample :
    ((onError "user-service"
        { userService with status := Status.healthy, responseTime := some (RespTime.ms 42) }
        "r" 9).1.status = Status.unhealthy) ∧
    ((onError "user-service"
        { userService with status := Status.healthy, responseTime := some (RespTime.ms 42) }
        "r" 9).1.responseTime = some (RespTime.ms 42)) ∧
    some (RespTime.ms 42) ≠ some RespTime.timeout := by
  decide

/-- C3 amended: a health-probe timeout/transport failure sets status
`unhealthy` and `responseTime` to the timeout sentinel regardless of the
previous values; a proxy-path transport failure sets status `unhealthy`
(and a fresh `lastHealthCheck`) but leaves `responseTime` unchanged. -/
theorem timeout_observation_updates (svc : ServiceDescriptor)
    (key reqId : String) (now : Nat) :
    ((checkServiceHealth svc ProbeResult.transportFailure now).status =
        Status.unhealthy ∧
      (checkServiceHealth svc ProbeResult.transportFailure now).responseTime =
        some RespTime.timeout) ∧
    ((onError key svc reqId now).1.status = Status.unhealthy ∧
      (onError key svc reqId now).1.lastHealthCheck = some now ∧
      (onError key svc reqId now).1.responseTime = svc.responseTime) := by
  exact ⟨⟨rfl, rfl⟩, rfl, rfl, rfl⟩

/-- C4 counterexample: a health probe completing with status 201 — a
2xx status — marks the service unhealthy, not healthy. -/
theorem probe_201_unhealthy_counterexample :
    (200 ≤ 201 ∧ 201 < 300) ∧
    (checkServiceHealth userService (ProbeResult.response 201 10) 5).status =
      Status.unhealthy := by
  decide

/-- C4 amended: a probe completing with status exactly 200 marks the
service healthy with the elapsed latency; a probe completing with any
other status below 500 marks it unhealthy with the elapsed latency; a
response of 500 or above is rejected by the probe client and handled as a
failure: unhealthy with the timeout sentinel. -/
theorem probe_status_writes (svc : ServiceDescriptor) (s e now : Nat) :
    (s = 200 →
      checkServiceHealth svc (ProbeResult.response s e) now =
        { svc with status := Status.healthy
                   lastHealthCheck := some now
                   responseTime := some (RespTime.ms e) }) ∧
    (s ≠ 200 → s < 500 →
      checkServiceHealth svc (ProbeResult.response s e) now =
        { svc with status := Status.unhealthy
                   lastHealthCheck := some now
                   responseTime := some (RespTime.ms e) }) ∧
    (500 ≤ s →
      checkServiceHealth svc (ProbeResult.response s e) now =
        { svc with status := Status.unhealthy
                   lastHealthCheck := some now
                   responseTime := some RespTime.timeout }) := by
  refine ⟨?_, ?_, ?_⟩
  · intro h
    subst h
    simp [checkServiceHealth, axiosGet]
  · intro hne hlt
    simp [checkServiceHealth, axiosGet, hlt, hne]
  · intro hge
    have hlt : ¬ s < 500 := by omega
    simp [checkServiceHealth, axiosGet, hlt]

/-- C4 amended witness: the three branches evaluated at statuses 200, 404
and 503 on the initial user-service descriptor. -/
theorem probe_status_writes_witness :
    checkServiceHealth userService (ProbeResult.response 200 12) 1 =
      { userService with status := Status.healthy
                         lastHealthCheck := some 1
                         responseTime := some (RespTime.ms 12) } ∧
    checkServiceHealth userService (ProbeResult.response 404 12) 1 =
      { userService with status := Status.unhealthy
                         lastHealthCheck := some 1
                         responseTime := some (RespTime.ms 12) } ∧
    checkServiceHealth userService (ProbeResult.response 503 12) 1 =
      { userService with status := Status.unhealthy
                         lastHealthCheck := some 1
                         responseTime := some RespTime.timeout } :=
  ⟨(probe_status_writes userService 200 12 1).1 rfl,
   (probe_status_writes userService 404 12 1).2.1 (by decide) (by decide),
   (probe_status_writes userService 503 12 1).2.2 (by decide)⟩

/-- C9: every descriptor is registered with status `unknown`, and every
status write — by the prober (`checkServiceHealth`) or by the proxy
observers (`onError`, `onProxyRes`) — assigns only `healthy` or
`unhealthy` (`onProxyRes` on a status of 500 or above writes nothing). -/
theorem status_value_invariant :
    (∀ e ∈ registerServices, e.2.status = Status.unknown) ∧
    (∀ (svc : ServiceDescriptor) (r : ProbeResult) (now : Nat),
      (checkServiceHealth svc r now).status = Status.healthy ∨
      (checkServiceHealth svc r now).status = Status.unhealthy) ∧
    (∀ (key : String) (svc : ServiceDescriptor) (reqId : String) (now : Nat),
      (onError key svc reqId now).1.status = Status.unhealthy) ∧
    (∀ (key : String) (svc : ServiceDescriptor) (res : BackendResponse)
        (reqId : String) (now : Nat),
      (onProxyRes key svc res reqId now).1.status = Status.healthy ∨
      (onProxyRes key svc res reqId now).1 = svc) := by
  refine ⟨by decide, ?_, ?_, ?_⟩
  · intro svc r now
    unfold checkServiceHealth
    cases hr : axiosGet r with
    | ok p =>
        cases hb : (p.1 == 200) <;> simp [hb]
    | error u => simp
  · intro key svc reqId now
    exact rfl
  · intro key svc res reqId now
    unfold onProxyRes
    by_cases hlt : res.statusCode < 500 <;> simp [hlt]

/-- C9 witness: the registered user-service entry has status `unknown`. -/
theorem status_value_invariant_witness :
    (("user-service", userService) ∈ registerServices) ∧
    userService.status = Status.unknown :=
  ⟨by decide, status_value_invariant.1 ("user-service", userService) (by decide)⟩

/-- C10: neither proxy observer writes `responseTime` — a relayed
response (status below 500) and a transport error write only `status`
and `lastHealthCheck` — while every probe writes `responseTime`; hence
the latency reported for a service reflects its last out-of-band probe. -/
theorem proxy_frame_responseTime (key : String) (svc : ServiceDescriptor)
    (res : BackendResponse) (reqId : String) (now : Nat) :
    ((onProxyRes key svc res reqId now).1.responseTime = svc.responseTime) ∧
    ((onError key svc reqId now).1.responseTime = svc.responseTime) ∧
    (res.statusCode < 500 →
      (onProxyRes key svc res reqId now).1.status = Status.healthy ∧
      (onProxyRes key svc res reqId now).1.lastHealthCheck = some now) ∧
    ((onError key svc reqId now).1.status = Status.unhealthy ∧
      (onError key svc reqId now).1.lastHealthCheck = some now) ∧
    (∀ r : ProbeResult, ∃ rt : RespTime,
      (checkServiceHealth svc r now).responseTime = some rt) := by
  refine ⟨?_, rfl, ?_, ⟨rfl, rfl⟩, ?_⟩
  · unfold onProxyRes
    by_cases hlt : res.statusCode < 500 <;> simp [hlt]
  · intro hlt
    simp [onProxyRes, hlt]
  · intro r
    unfold checkServiceHealth
    cases hr : axiosGet r with
    | ok p => exact ⟨RespTime.ms p.2, rfl⟩
    | error u => exact ⟨RespTime.timeout, rfl⟩

/-- C10 witness: a relayed 200 and a transport error on a descriptor
whose probe latency is 42 ms both leave `responseTime` at 42 ms. -/
theorem proxy_frame_responseTime_witness :
    (onProxyRes "user-service"
        { userService with responseTime := some (RespTime.ms 42) }
        { statusCode := 200, headers := [], body := "ok" } "r" 6).1.responseTime =
      some (RespTime.ms 42) ∧
    (onError "user-service"
        { userService with responseTime := some (RespTime.ms 42) }
        "r" 6).1.responseTime = some (RespTime.ms 42) :=
  ⟨(proxy_frame_responseTime "user-service"
      { userService with responseTime := some (RespTime.ms 42) }
      { statusCode := 200, headers := [], body := "ok" } "r" 6).1,
   (proxy_frame_responseTime "user-service"
      { userService with responseTime := some (RespTime.ms 42) }
      { statusCode := 200, headers := [], body := "ok" } "r" 6).2.1⟩

end Gateway
